import Mathlib

/-!
# Verification of the scheduled-delivery worker and session lifecycle

Shallow embedding of the WhatsApp gateway server (`wa_server.js`, the
`baileys-server/server.js` multi-session variant, and the near-duplicate
single-session variants in `unnamed/part_000`, `part_001`, `part_004`).

The durable job queue lives in the Postgres table `wa_jobs`; we model the
table as a `List Job` and each SQL statement of the worker as a pure
function on that list.  The transport (Baileys socket) is modeled by an
environment carrying the connectivity flag and the outcome of
`sock.sendMessage`.
-/

/-- Job status column of `wa_jobs` (`wa_server.js` lines 67-80):
`'queued' | 'processing' | 'sent' | 'failed'`. -/
inductive JobStatus where
  | queued
  | processing
  | sent
  | failed
deriving DecidableEq, Repr

/-- One row of the `wa_jobs` table (`wa_server.js` lines 67-80).
Timestamps are modeled as integers. -/
structure Job where
  id : Nat
  to_jid : String
  message : String
  send_at : Int
  status : JobStatus
  error : Option String
  created_at : Int
  sent_at : Option Int
deriving DecidableEq, Repr

/-- Ordering relation used by `ORDER BY send_at ASC`. -/
def sendAtLe (a b : Job) : Prop := a.send_at ≤ b.send_at

instance : DecidableRel sendAtLe :=
  fun a b => inferInstanceAs (Decidable (a.send_at ≤ b.send_at))

instance : IsTotal Job sendAtLe := ⟨fun a b => Int.le_total a.send_at b.send_at⟩

instance : IsTrans Job sendAtLe := ⟨fun _ _ _ h1 h2 => Int.le_trans h1 h2⟩

/-- The due-job selection of the dispatcher tick (`wa_server.js` lines
279-286): `SELECT ... FROM wa_jobs WHERE status = 'queued' AND send_at <=
NOW() ORDER BY send_at ASC LIMIT 10`, with the limit as a parameter.
The `SELECT` does not modify the store; the claim itself is the per-row
conditional `UPDATE` below (`claimJob`). -/
def claimDue (store : List Job) (now : Int) (limit : Nat) : List Job :=
  ((store.filter fun j => j.status = .queued ∧ j.send_at ≤ now).insertionSort
    sendAtLe).take limit

/-- The per-job conditional claim (`wa_server.js` lines 289-292):
`UPDATE wa_jobs SET status='processing' WHERE id=$1 AND status='queued'`.
Returns the updated table together with the affected row count
(`upd.rowCount`). -/
def claimJob (store : List Job) (id : Nat) : List Job × Nat :=
  (store.map fun j =>
     if j.id = id ∧ j.status = .queued then { j with status := .processing } else j,
   (store.filter fun j => j.id = id ∧ j.status = .queued).length)

/-- `UPDATE wa_jobs SET status='sent', sent_at=NOW(), error=NULL WHERE id=$1`
(`wa_server.js` line 305). -/
def markSent (store : List Job) (id : Nat) (now : Int) : List Job :=
  store.map fun j =>
    if j.id = id then { j with status := .sent, sent_at := some now, error := none } else j

/-- `UPDATE wa_jobs SET status='failed', error=$2 WHERE id=$1`
(`wa_server.js` line 307). -/
def markFailed (store : List Job) (id : Nat) (err : String) : List Job :=
  store.map fun j =>
    if j.id = id then { j with status := .failed, error := some err } else j

/-- Transport environment seen by one dispatcher tick: the current clock,
the `isConnected` flag, and the outcome of `sock.sendMessage` (`.ok` for a
resolved promise, `.error s` for a rejection whose `String(e)` is `s`). -/
structure Env where
  now : Int
  isConnected : Bool
  send : String → String → Except String Unit

/-- `String(new Error('WhatsApp desconectado'))`, the error recorded when
the tick finds the socket disconnected (`wa_server.js` line 297). -/
def notConnectedError : String := "Error: WhatsApp desconectado"

/-- The send attempt inside the tick (`wa_server.js` lines 296-302):
`if (!isConnected) throw new Error('WhatsApp desconectado');
await sock.sendMessage(job.to_jid, { text: job.message })`. -/
def sendAttempt (env : Env) (toJid msg : String) : Except String Unit :=
  if env.isConnected then env.send toJid msg else .error notConnectedError

/-- Body of the per-job loop of the dispatcher tick (`wa_server.js` lines
288-309): conditional claim, skip on zero affected rows, otherwise attempt
the send and record the outcome. -/
def processJob (env : Env) (store : List Job) (job : Job) : List Job :=
  let claimed := claimJob store job.id
  if claimed.2 = 0 then claimed.1
  else
    match sendAttempt env job.to_jid job.message with
    | .ok _ => markSent claimed.1 job.id env.now
    | .error e => markFailed claimed.1 job.id e

/-- One dispatcher tick (`runSchedulerTick`, `wa_server.js` lines 277-313):
select due queued jobs (limit 10), then claim and process each in order. -/
def runSchedulerTick (env : Env) (store : List Job) : List Job :=
  (claimDue store env.now 10).foldl (processJob env) store

example :
    claimJob [{ id := 1, to_jid := "a", message := "m", send_at := 0,
                status := .queued, error := none, created_at := 0, sent_at := none }] 1
      = ([{ id := 1, to_jid := "a", message := "m", send_at := 0,
            status := .processing, error := none, created_at := 0, sent_at := none }], 1) := by
  decide

/-! ## String helpers modeling the JavaScript string operations -/

/-- JavaScript `String.prototype.startsWith` on character lists. -/
def listStartsWith : List Char → List Char → Bool
  | _, [] => true
  | [], _ :: _ => false
  | a :: as, b :: bs => a == b && listStartsWith as bs

/-- Auxiliary recursion for `jsIncludes`. -/
def hasSubstr : List Char → List Char → Bool
  | [], pat => pat.isEmpty
  | c :: cs, pat => listStartsWith (c :: cs) pat || hasSubstr cs pat

/-- JavaScript `s.includes(pat)`. -/
def jsIncludes (s pat : String) : Bool := hasSubstr s.data pat.data

/-- JavaScript `s.startsWith(pre)`. -/
def strStartsWith (s pre : String) : Bool := listStartsWith s.data pre.data

/-- JavaScript `s.replace(/\D/g, '')`: keep only the decimal digits. -/
def digitsOnly (s : String) : String := ⟨s.data.filter Char.isDigit⟩

/-- JavaScript `s.replace(/^0+/, '')`: drop the leading run of zeros. -/
def dropLeadingZeros (s : String) : String := ⟨s.data.dropWhile (· == '0')⟩

/-- `normalizeToJid` (`wa_server.js` lines 51-57): `null` on a falsy input,
otherwise strip non-digits, strip leading zeros when the digits start with
`'0'`, prefix `"55"` unless already present, and append the JID suffix. -/
def normalizeToJid (dest : String) : Option String :=
  if dest = "" then none
  else
    let p := digitsOnly dest
    let p := if strStartsWith p "0" then dropLeadingZeros p else p
    let p := if strStartsWith p "55" then p else "55" ++ p
    some (p ++ "@s.whatsapp.net")

/-- The recipient pipeline as the specification words it: strip every
non-digit, remove leading zeros (unconditionally), prepend `"55"` when the
digits do not already start with it, append `"@s.whatsapp.net"`. -/
def normalizeToJidSpec (dest : String) : Option String :=
  if dest = "" then none
  else
    let p := dropLeadingZeros (digitsOnly dest)
    some ((if strStartsWith p "55" then p else "55" ++ p) ++ "@s.whatsapp.net")

/-! ## The `/schedule` submission endpoint -/

/-- Request body of `POST /schedule` (`wa_server.js` line 229): `dest`
embeds the JSON field `to` (a Lean keyword); each field may be absent; an
empty string is falsy exactly like an absent field. -/
structure ScheduleReq where
  dest : Option String
  text : Option String
  send_at : Option String

/-- JavaScript truthiness of an optional string field. -/
def truthy : Option String → Bool
  | none => false
  | some s => !(s = "")

/-- HTTP outcome of `POST /schedule`. -/
inductive ScheduleResult where
  | badRequest (msg : String)
  | created (jobId : Nat)
deriving DecidableEq, Repr

/-- `POST /schedule` handler (`wa_server.js` lines 227-245): reject when
`to`, `text` or `send_at` is falsy; reject when `new Date(send_at)` is an
invalid date (the JS date parser is the abstract parameter `parseDate`,
yielding `none` exactly when `isNaN(when.getTime())`); otherwise insert one
`'queued'` row and return its id.  `now` stands for the `created_at`
default and `nextId` for the `BIGSERIAL` id the insert assigns. -/
def scheduleHandler (parseDate : String → Option Int) (now : Int)
    (store : List Job) (nextId : Nat) (req : ScheduleReq) :
    List Job × ScheduleResult :=
  if !(truthy req.dest) || !(truthy req.text) || !(truthy req.send_at) then
    (store, .badRequest "Campos to, text, send_at são obrigatórios")
  else
    match parseDate (req.send_at.getD "") with
    | none => (store, .badRequest "send_at inválido (ISO esperado)")
    | some w =>
        (store ++ [{ id := nextId, to_jid := (normalizeToJid (req.dest.getD "")).getD "",
                     message := req.text.getD "", send_at := w, status := .queued,
                     error := none, created_at := now, sent_at := none }],
         .created nextId)

/-! ## Disconnect reasons and the close handlers -/

/-- Baileys status codes used by the source (`DisconnectReason`). -/
def DisconnectReason.loggedOut : Nat := 401

/-- Baileys `DisconnectReason.badSession`. -/
def DisconnectReason.badSession : Nat := 500

/-- Baileys `DisconnectReason.restartRequired`. -/
def DisconnectReason.restartRequired : Nat := 515

/-- Reconnect decision of the `connection === 'close'` branch in
`startBaileys` (`wa_server.js` lines 144-154): schedule `startBaileys`
after 3000 ms unless the status code is `DisconnectReason.loggedOut`.
`none` means no reconnect is scheduled; the status code is optional
because `lastDisconnect?.error?.output?.statusCode` may be undefined. -/
def reconnectDelayOnClose (statusCode : Option Nat) : Option Nat :=
  if statusCode ≠ some DisconnectReason.loggedOut then some 3000 else none

/-- Reconnect decision of the close branch in `connectWA`
(`unnamed/part_001` lines 36-39): `setTimeout(connectWA, 2000)` is always
scheduled, with no logged-out check. -/
def part001ReconnectDelayOnClose (_statusCode : Option Nat) : Option Nat :=
  some 2000

/-- Reconnect decision of the close branch in `connectToWhatsApp`
(`unnamed/part_000` lines 25-28): `connectToWhatsApp()` is always invoked
immediately, with no logged-out check. -/
def part000ReconnectDelayOnClose (_statusCode : Option Nat) : Option Nat :=
  some 0

/-- Reconnect decision of the close branch in `start`
(`unnamed/part_004`): restart immediately unless the Boom status code is
`DisconnectReason.loggedOut`. -/
def part004ReconnectDelayOnClose (statusCode : Option Nat) : Option Nat :=
  if statusCode ≠ some DisconnectReason.loggedOut then some 0 else none

/-! ## The multi-session server (`baileys-server/server.js`) -/

/-- Session status strings used by `baileys-server/server.js`:
`'initializing' | 'qr_ready' | 'connecting' | 'connected' |
'disconnected' | 'error'`. -/
inductive SessStatus where
  | initializing
  | qr_ready
  | connecting
  | connected
  | disconnected
  | error
deriving DecidableEq, Repr

/-- One entry of the `sessions` map (`baileys-server/server.js` line 16 and
lines 174-182): `{ sock, qrCode, isConnected, status, backupInterval }`.
The socket handle is external state; `backupArmed` models whether
`backupInterval` holds a live interval handle (`null` ↦ `false`). -/
structure Sess where
  qrCode : String
  isConnected : Bool
  status : SessStatus
  backupArmed : Bool
deriving DecidableEq, Repr

/-- The fresh entry placed in the `sessions` map when a session is first
referenced (`baileys-server/server.js` lines 174-182). -/
def initialSession : Sess :=
  { qrCode := "", isConnected := false, status := .initializing, backupArmed := false }

/-- The `lastDisconnect.error` payload: Boom status code (possibly absent)
and error message. -/
structure CloseErr where
  statusCode : Option Nat
  message : String
deriving DecidableEq, Repr

/-- A `connection.update` event as the handler destructures it
(`baileys-server/server.js` line 204): `{ connection, lastDisconnect, qr }`. -/
inductive Conn where
  | close
  | opened
  | connecting
deriving DecidableEq, Repr

/-- The update record passed to `connection.update` listeners. -/
structure ConnUpdate where
  connection : Option Conn
  lastDisconnect : Option CloseErr
  qr : Option String

/-- The conflict test of the close branch (`baileys-server/server.js`
lines 220-223): `badSession`, `restartRequired`, or an error message
containing `'device_removed'` or `'conflict'`. -/
def isConflictClose (e : Option CloseErr) : Bool :=
  match e with
  | none => false
  | some c =>
      c.statusCode == some DisconnectReason.badSession ||
      c.statusCode == some DisconnectReason.restartRequired ||
      jsIncludes c.message "device_removed" ||
      jsIncludes c.message "conflict"

/-- `shouldReconnect` (`baileys-server/server.js` line 216):
`(lastDisconnect?.error)?.output?.statusCode !== DisconnectReason.loggedOut`. -/
def shouldReconnect (e : Option CloseErr) : Bool :=
  (e.bind CloseErr.statusCode) != some DisconnectReason.loggedOut

/-- The `connection.update` handler of one session
(`baileys-server/server.js` lines 203-258).  Returns the updated session
entry, the delay of the `setTimeout(() => connectToWhatsApp(sessionId), _)`
reconnect it schedules (if any), and whether the one-shot forced backup
(`setTimeout(..., 10000)`) was scheduled. -/
def handleConnectionUpdate (s : Sess) (u : ConnUpdate) : Sess × Option Nat × Bool :=
  let s :=
    match u.qr with
    | some q => { s with qrCode := q, status := .qr_ready }
    | none => s
  match u.connection with
  | some .close =>
      let s := { s with isConnected := false, status := .disconnected }
      if isConflictClose u.lastDisconnect then
        ({ s with qrCode := "", status := .disconnected }, some 30000, false)
      else if shouldReconnect u.lastDisconnect then
        (s, some 10000, false)
      else
        (s, none, false)
  | some .opened =>
      ({ s with isConnected := true, status := .connected, qrCode := "",
                backupArmed := true },
       none, true)
  | some .connecting =>
      ({ s with status := .connecting }, none, false)
  | none => (s, none, false)

/-- The teardown performed by `POST /reconnect/:sessionId` and
`POST /clear-session/:sessionId` on an existing entry
(`baileys-server/server.js` lines 428-437 and 473-482): `sock.end()` and
`clearInterval(session.backupInterval)` before the entry is deleted from
the map. -/
def clearSessionTimers (s : Sess) : Sess := { s with backupArmed := false }

/-- Outcome of one `fetch` of `/api/session/restore`
(`baileys-server/server.js` lines 87-115): a 200 response carrying
`session_data` (a filename/content map), a 404, or a thrown error
(network failure, timeout, or a non-200/404 status). -/
inductive FetchResult where
  | ok (sessionData : List (String × String))
  | notFound
  | thrown (msg : String)
deriving DecidableEq, Repr

/-- `restoreSessionFromDatabase` (`baileys-server/server.js` lines 81-129):
the bounded retry loop over the attempts' outcomes, one list entry per
attempt (`retries = 3` in the source).  A 200 with non-empty data restores
and returns `true`; a 404 returns `false` (record absent); a thrown error
is caught — the last attempt returns `false`, earlier ones back off and
retry; a 200 with empty data falls through to the next attempt; an
exhausted loop returns `false`.  Every path returns a boolean: no outcome
sequence makes the operation propagate an exception. -/
def restoreSessionFromDatabase : List FetchResult → Bool
  | [] => false
  | .ok d :: rest => if 0 < d.length then true else restoreSessionFromDatabase rest
  | .notFound :: _ => false
  | .thrown _ :: rest => restoreSessionFromDatabase rest

/-- The initialization part of `connectToWhatsApp`
(`baileys-server/server.js` lines 132-186): awaits
`restoreSessionFromDatabase` (result unused for control flow), then
unconditionally builds the socket and installs the fresh `sessions` entry
when none exists.  Returns the restore result and the fresh entry. -/
def connectToWhatsApp (fetches : List FetchResult) : Bool × Sess :=
  (restoreSessionFromDatabase fetches, initialSession)

/-- A `connection.update` carrying only a pairing payload. -/
def qrUpdate (q : String) : ConnUpdate :=
  { connection := none, lastDisconnect := none, qr := some q }

/-- A `connection.update` carrying only a close with the given error. -/
def closeUpdate (e : Option CloseErr) : ConnUpdate :=
  { connection := some .close, lastDisconnect := e, qr := none }

/-! ## The single-session `wa_server.js` connection state -/

/-- Module-level Baileys state of `wa_server.js` (lines 42-48):
`isConnected`, `lastQR` (data URL), `lastQRpng`, `meJid`. -/
structure WaState where
  isConnected : Bool
  lastQR : Option String
  lastQRpng : Option String
  meJid : Option String
deriving DecidableEq, Repr

/-- Connection field of a `wa_server.js` `connection.update` event. -/
inductive WaConn where
  | opened
  | close
deriving DecidableEq, Repr

/-- A `connection.update` event as `startBaileys` destructures it
(`wa_server.js` line 122): connection phase, the Boom status code of
`lastDisconnect?.error?.output?.statusCode`, and the raw QR string. -/
structure WaUpdate where
  connection : Option WaConn
  statusCode : Option Nat
  qr : Option String

/-- The `connection.update` handler of `startBaileys` (`wa_server.js`
lines 121-155).  `qrGen q` is the outcome of `QRCode.toDataURL`/`toBuffer`
(`none` when generation throws); `sockUser` is `sock.user?.id`.  Returns
the updated state and the delay of the `setTimeout(startBaileys, _)`
reconnect scheduled by the close branch, if any. -/
def waConnectionUpdate (qrGen : String → Option (String × String))
    (sockUser : Option String) (st : WaState) (u : WaUpdate) :
    WaState × Option Nat :=
  let st :=
    match u.qr with
    | some q =>
        match qrGen q with
        | some (durl, png) =>
            { st with lastQR := some durl, lastQRpng := some png, isConnected := false }
        | none =>
            { st with lastQR := none, lastQRpng := none, isConnected := false }
    | none => st
  match u.connection with
  | some .opened =>
      ({ st with isConnected := true, lastQR := none, lastQRpng := none,
                 meJid := sockUser }, none)
  | some .close =>
      ({ st with isConnected := false }, reconnectDelayOnClose u.statusCode)
  | none => (st, none)

/-! ## Helper lemmas about the job queue -/

/-- Membership in the due selection forces membership in the store with
status `queued` and a due `send_at`. -/
lemma mem_claimDue {st : List Job} {now : Int} {lim : Nat} {j : Job}
    (h : j ∈ claimDue st now lim) :
    j ∈ st ∧ j.status = .queued ∧ j.send_at ≤ now := by
  have h1 : j ∈ (st.filter fun j => j.status = .queued ∧ j.send_at ≤ now).insertionSort
      sendAtLe := List.mem_of_mem_take h
  rw [List.mem_insertionSort] at h1
  have h2 := List.mem_filter.mp h1
  refine ⟨h2.1, ?_⟩
  simpa using h2.2

/-- After a claim, no row with the claimed id is still `queued`. -/
lemma not_claimable_mem_claimJob (st : List Job) (idv : Nat) :
    ∀ j ∈ (claimJob st idv).1, ¬(j.id = idv ∧ j.status = .queued) := by
  intro j hj
  simp only [claimJob, List.mem_map] at hj
  obtain ⟨a, _, rfl⟩ := hj
  by_cases h : a.id = idv ∧ a.status = .queued
  · simp [h]
  · simpa [if_neg h] using h

/-- A second conditional claim of the same id affects zero rows. -/
lemma claimJob_claimJob (st : List Job) (idv : Nat) :
    (claimJob (claimJob st idv).1 idv).2 = 0 := by
  have h := not_claimable_mem_claimJob st idv
  have hnil : ((claimJob st idv).1.filter fun j => j.id = idv ∧ j.status = .queued) = [] := by
    rw [List.filter_eq_nil_iff]
    intro a ha
    simpa using h a ha
  show ((claimJob st idv).1.filter fun j => j.id = idv ∧ j.status = .queued).length = 0
  rw [hnil]
  rfl

/-- A claim that affected zero rows left the table untouched. -/
lemma claimJob_fst_of_snd_zero {st : List Job} {idv : Nat}
    (h : (claimJob st idv).2 = 0) : (claimJob st idv).1 = st := by
  simp only [claimJob, List.length_eq_zero, List.filter_eq_nil_iff] at h
  simp only [claimJob]
  induction st with
  | nil => rfl
  | cons a l ih =>
      have ha : ¬(a.id = idv ∧ a.status = .queued) := by
        simpa using h a (List.mem_cons_self a l)
      have hl : ∀ b ∈ l, ¬(decide (b.id = idv ∧ b.status = .queued) = true) := by
        intro b hb
        exact h b (List.mem_cons_of_mem a hb)
      simp only [List.map_cons, if_neg ha, List.cons.injEq, true_and]
      exact ih hl

/-- A row whose id differs from the claimed one survives the claim
unchanged. -/
lemma mem_claimJob_of_id_ne {st : List Job} {j : Job} {idv : Nat}
    (hmem : j ∈ st) (hne : j.id ≠ idv) : j ∈ (claimJob st idv).1 := by
  simp only [claimJob, List.mem_map]
  refine ⟨j, hmem, ?_⟩
  rw [if_neg]
  intro h
  exact hne h.1

/-- A row whose id differs survives `markSent` unchanged. -/
lemma mem_markSent_of_id_ne {st : List Job} {j : Job} {idv : Nat} {now : Int}
    (hmem : j ∈ st) (hne : j.id ≠ idv) : j ∈ markSent st idv now := by
  simp only [markSent, List.mem_map]
  exact ⟨j, hmem, by rw [if_neg hne]⟩

/-- A row whose id differs survives `markFailed` unchanged. -/
lemma mem_markFailed_of_id_ne {st : List Job} {j : Job} {idv : Nat} {e : String}
    (hmem : j ∈ st) (hne : j.id ≠ idv) : j ∈ markFailed st idv e := by
  simp only [markFailed, List.mem_map]
  exact ⟨j, hmem, by rw [if_neg hne]⟩

/-- A row whose id differs from the processed job's survives the loop body
unchanged. -/
lemma mem_processJob_of_id_ne {env : Env} {st : List Job} {j job : Job}
    (hmem : j ∈ st) (hne : j.id ≠ job.id) : j ∈ processJob env st job := by
  have h1 := mem_claimJob_of_id_ne hmem hne
  simp only [processJob]
  split
  · exact h1
  · split
    · exact mem_markSent_of_id_ne h1 hne
    · exact mem_markFailed_of_id_ne h1 hne

/-- A row touched by none of the processed jobs survives the whole loop. -/
lemma mem_foldl_processJob {env : Env} {j : Job} (jobs : List Job) (st : List Job)
    (hmem : j ∈ st) (hne : ∀ k ∈ jobs, k.id ≠ j.id) :
    j ∈ jobs.foldl (processJob env) st := by
  induction jobs generalizing st with
  | nil => exact hmem
  | cons a l ih =>
      simp only [List.foldl_cons]
      refine ih (processJob env st a) ?_ ?_
      · exact mem_processJob_of_id_ne hmem fun h => hne a (List.mem_cons_self a l) h.symm
      · intro k hk
        exact hne k (List.mem_cons_of_mem a hk)

/-- Rows carrying the marked id come out of `markSent` as `sent` with the
completion timestamp set and the error cleared. -/
lemma mem_markSent_self {st : List Job} {j : Job} {idv : Nat} {now : Int}
    (h : j ∈ markSent st idv now) (hid : j.id = idv) :
    j.status = .sent ∧ j.sent_at = some now ∧ j.error = none := by
  simp only [markSent, List.mem_map] at h
  obtain ⟨a, _, rfl⟩ := h
  by_cases hc : a.id = idv
  · simp [if_pos hc]
  · rw [if_neg hc] at hid ⊢
    exact absurd hid hc

/-- Rows carrying the marked id come out of `markFailed` as `failed` with
the error recorded. -/
lemma mem_markFailed_self {st : List Job} {j : Job} {idv : Nat} {e : String}
    (h : j ∈ markFailed st idv e) (hid : j.id = idv) :
    j.status = .failed ∧ j.error = some e := by
  simp only [markFailed, List.mem_map] at h
  obtain ⟨a, _, rfl⟩ := h
  by_cases hc : a.id = idv
  · simp [if_pos hc]
  · rw [if_neg hc] at hid ⊢
    exact absurd hid hc

/-- The conditional claim never touches the `sent_at` column. -/
lemma map_sentAt_claimJob (st : List Job) (idv : Nat) :
    ((claimJob st idv).1.map Job.sent_at) = st.map Job.sent_at := by
  simp only [claimJob, List.map_map]
  apply List.map_congr_left
  intro a _
  by_cases hc : a.id = idv ∧ a.status = .queued
  · simp [if_pos hc]
  · simp [if_neg hc]

/-- `markFailed` never touches the `sent_at` column. -/
lemma map_sentAt_markFailed (st : List Job) (idv : Nat) (e : String) :
    ((markFailed st idv e).map Job.sent_at) = st.map Job.sent_at := by
  simp only [markFailed, List.map_map]
  apply List.map_congr_left
  intro a _
  by_cases hc : a.id = idv
  · simp [if_pos hc]
  · simp [if_neg hc]

/-! ## Sample store used to instantiate the theorems -/

/-- A due queued job. -/
def jobQueued : Job :=
  { id := 1, to_jid := "5511999990001@s.whatsapp.net", message := "hi",
    send_at := 3, status := .queued, error := none, created_at := 0, sent_at := none }

/-- A second due queued job, due later than `jobQueued`. -/
def jobQueued2 : Job :=
  { id := 2, to_jid := "5511999990002@s.whatsapp.net", message := "oi",
    send_at := 4, status := .queued, error := none, created_at := 0, sent_at := none }

/-- A job already claimed by another dispatcher. -/
def jobProcessing : Job :=
  { id := 3, to_jid := "5511999990003@s.whatsapp.net", message := "m3",
    send_at := 1, status := .processing, error := none, created_at := 0, sent_at := none }

/-- A delivered job. -/
def jobSent : Job :=
  { id := 4, to_jid := "5511999990004@s.whatsapp.net", message := "m4",
    send_at := 1, status := .sent, error := none, created_at := 0, sent_at := some 2 }

/-- A terminally failed job. -/
def jobFailed : Job :=
  { id := 5, to_jid := "5511999990005@s.whatsapp.net", message := "m5",
    send_at := 1, status := .failed, error := some "Error: send failed",
    created_at := 0, sent_at := none }

/-- A queued job whose `send_at` lies in the future of the sample clock. -/
def jobFuture : Job :=
  { id := 6, to_jid := "5511999990006@s.whatsapp.net", message := "m6",
    send_at := 100, status := .queued, error := none, created_at := 0, sent_at := none }

/-- Sample `wa_jobs` contents. -/
def sampleStore : List Job :=
  [jobQueued, jobQueued2, jobProcessing, jobSent, jobFailed, jobFuture]

/-- Sample environment: clock 5, connected, sends succeed. -/
def sampleEnv : Env := { now := 5, isConnected := true, send := fun _ _ => .ok () }

/-! ## The claims -/

/-- C1: the queued→processing transition is a per-job conditional update.
A second conditional claim of an already-claimed id affects zero rows; a
claim that affects zero rows leaves the table untouched, so the dispatcher
skips the job without sending or recording an outcome; and a dispatcher
tick running over a store state in which a job is already `processing`
never selects that job (`claimDue` filters on `status = 'queued'`). -/
theorem claim_admission_gate (st : List Job) (env : Env) (job j : Job)
    (now : Int) (lim : Nat) :
    (claimJob (claimJob st job.id).1 job.id).2 = 0
    ∧ ((claimJob st job.id).2 = 0 → processJob env st job = st)
    ∧ (j ∈ st → j.status = .processing → j ∉ claimDue st now lim) := by
  refine ⟨claimJob_claimJob st job.id, ?_, ?_⟩
  · intro h
    simp only [processJob]
    rw [if_pos h]
    exact claimJob_fst_of_snd_zero h
  · intro _ hproc hdue
    have hq := (mem_claimDue hdue).2.1
    rw [hproc] at hq
    exact absurd hq (by decide)

/-- C1 witness: on the sample store, re-claiming `jobQueued` after a claim
affects zero rows, processing the already-claimed `jobProcessing` leaves
the store untouched, and the `processing` job is not selected by the due
query. -/
theorem claim_admission_gate_witness :
    (claimJob (claimJob sampleStore jobQueued.id).1 jobQueued.id).2 = 0
    ∧ processJob sampleEnv sampleStore jobProcessing = sampleStore
    ∧ jobProcessing ∉ claimDue sampleStore 5 10 :=
  ⟨(claim_admission_gate sampleStore sampleEnv jobQueued jobQueued 5 10).1,
   (claim_admission_gate sampleStore sampleEnv jobProcessing jobProcessing 5 10).2.1
     (by decide),
   (claim_admission_gate sampleStore sampleEnv jobProcessing jobProcessing 5 10).2.2
     (by decide) (by decide)⟩

/-- C2: the due selection returns at most `limit` jobs, only jobs that are
`queued` with `send_at ≤ now` (a future job is never selected), in
ascending `send_at` order, and every selected job's `send_at` is at most
the `send_at` of any due queued job left unselected. -/
theorem claimDue_selection (st : List Job) (now : Int) (lim : Nat) (j : Job) :
    (claimDue st now lim).length ≤ lim
    ∧ (j ∈ claimDue st now lim → j.status = .queued ∧ j.send_at ≤ now)
    ∧ (now < j.send_at → j ∉ claimDue st now lim)
    ∧ List.Sorted sendAtLe (claimDue st now lim)
    ∧ (∀ k, j ∈ claimDue st now lim → k ∈ st → k.status = .queued →
        k.send_at ≤ now → k ∉ claimDue st now lim → sendAtLe j k) := by
  refine ⟨List.length_take_le lim _, ?_, ?_, ?_, ?_⟩
  · intro h
    exact (mem_claimDue h).2
  · intro hf hmem
    exact absurd (mem_claimDue hmem).2.2 (not_le.mpr hf)
  · exact (List.sorted_insertionSort sendAtLe _).sublist (List.take_sublist lim _)
  · intro k hj hk hkq hkd hkn
    have hsl : List.Sorted sendAtLe
        ((st.filter fun j => j.status = .queued ∧ j.send_at ≤ now).insertionSort sendAtLe) :=
      List.sorted_insertionSort sendAtLe _
    have hkl : k ∈ (st.filter fun j => j.status = .queued ∧ j.send_at ≤ now).insertionSort
        sendAtLe := by
      rw [List.mem_insertionSort, List.mem_filter]
      exact ⟨hk, by simp [hkq, hkd]⟩
    have hsplit : k ∈ ((st.filter fun j => j.status = .queued ∧ j.send_at ≤ now).insertionSort
        sendAtLe).take lim
        ∨ k ∈ ((st.filter fun j => j.status = .queued ∧ j.send_at ≤ now).insertionSort
            sendAtLe).drop lim := by
      rw [← List.mem_append, List.take_append_drop]
      exact hkl
    rcases hsplit with h | h
    · exact absurd h hkn
    · exact hsl.rel_of_mem_take_of_mem_drop hj h

/-- C2 witness: on the sample store at clock 5, the selection respects the
limit, selects the due queued job, excludes the future job, and with limit
1 returns the earliest due job ahead of the later one. -/
theorem claimDue_selection_witness :
    (claimDue sampleStore 5 10).length ≤ 10
    ∧ (jobQueued.status = .queued ∧ jobQueued.send_at ≤ 5)
    ∧ jobFuture ∉ claimDue sampleStore 5 10
    ∧ List.Sorted sendAtLe (claimDue sampleStore 5 10)
    ∧ sendAtLe jobQueued jobQueued2 :=
  ⟨(claimDue_selection sampleStore 5 10 jobQueued).1,
   (claimDue_selection sampleStore 5 10 jobQueued).2.1 (by decide),
   (claimDue_selection sampleStore 5 10 jobFuture).2.2.1 (by decide),
   (claimDue_selection sampleStore 5 10 jobQueued).2.2.2.1,
   (claimDue_selection sampleStore 5 1 jobQueued).2.2.2.2 jobQueued2
     (by decide) (by decide) (by decide) (by decide) (by decide)⟩

/-- C3: outcome recording for a successfully claimed job.  Disconnected
session: every row with the job's id is marked `failed` with the
"not connected" reason and no row's `sent_at` changes (it stays unset).
Send resolves: every row with the job's id is marked `sent` with the
completion timestamp recorded and any prior error cleared.  Send rejects:
every row with the job's id is marked `failed` with the stringified
error. -/
theorem processJob_outcomes (env : Env) (st : List Job) (job j : Job) (e : String)
    (hclaim : (claimJob st job.id).2 ≠ 0) :
    (env.isConnected = false →
       (processJob env st job).map Job.sent_at = st.map Job.sent_at
       ∧ (j ∈ processJob env st job → j.id = job.id →
            j.status = .failed ∧ j.error = some notConnectedError))
    ∧ (env.isConnected = true → env.send job.to_jid job.message = .ok () →
        j ∈ processJob env st job → j.id = job.id →
          j.status = .sent ∧ j.sent_at = some env.now ∧ j.error = none)
    ∧ (env.isConnected = true → env.send job.to_jid job.message = .error e →
        (processJob env st job).map Job.sent_at = st.map Job.sent_at
        ∧ (j ∈ processJob env st job → j.id = job.id →
             j.status = .failed ∧ j.error = some e)) := by
  refine ⟨?_, ?_, ?_⟩
  · intro hdisc
    have hp : processJob env st job = markFailed (claimJob st job.id).1 job.id
        notConnectedError := by
      simp only [processJob, sendAttempt, hdisc, if_neg hclaim]
      rfl
    rw [hp]
    refine ⟨?_, ?_⟩
    · rw [map_sentAt_markFailed, map_sentAt_claimJob]
    · intro hmem hid
      exact mem_markFailed_self hmem hid
  · intro hconn hok hmem hid
    have hp : processJob env st job = markSent (claimJob st job.id).1 job.id env.now := by
      simp only [processJob, sendAttempt, hconn, if_true, hok, if_neg hclaim]
    rw [hp] at hmem
    exact mem_markSent_self hmem hid
  · intro hconn herr
    have hp : processJob env st job = markFailed (claimJob st job.id).1 job.id e := by
      simp only [processJob, sendAttempt, hconn, if_true, herr, if_neg hclaim]
    rw [hp]
    refine ⟨?_, ?_⟩
    · rw [map_sentAt_markFailed, map_sentAt_claimJob]
    · intro hmem hid
      exact mem_markFailed_self hmem hid

/-- Disconnected sample environment. -/
def envDisc : Env := { now := 7, isConnected := false, send := fun _ _ => .ok () }

/-- Connected sample environment whose sends resolve. -/
def envOk : Env := { now := 7, isConnected := true, send := fun _ _ => .ok () }

/-- Connected sample environment whose sends reject. -/
def envErr : Env := { now := 7, isConnected := true, send := fun _ _ => .error "Error: boom" }

/-- `jobQueued` after a failed delivery on a disconnected session. -/
def jobFailedNC : Job := { jobQueued with status := .failed, error := some notConnectedError }

/-- `jobQueued` after a successful delivery at clock 7. -/
def jobSentAt7 : Job := { jobQueued with status := .sent, sent_at := some 7, error := none }

/-- `jobQueued` after a rejected send. -/
def jobFailedBoom : Job := { jobQueued with status := .failed, error := some "Error: boom" }

/-- C3 witness: concrete runs of the loop body on a one-job store under a
disconnected environment, a succeeding send, and a rejecting send. -/
theorem processJob_outcomes_witness :
    (processJob envDisc [jobQueued] jobQueued).map Job.sent_at = [jobQueued].map Job.sent_at
    ∧ (jobFailedNC.status = .failed ∧ jobFailedNC.error = some notConnectedError)
    ∧ (jobSentAt7.status = .sent ∧ jobSentAt7.sent_at = some 7 ∧ jobSentAt7.error = none)
    ∧ (jobFailedBoom.status = .failed ∧ jobFailedBoom.error = some "Error: boom") :=
  ⟨((processJob_outcomes envDisc [jobQueued] jobQueued jobFailedNC "x" (by decide)).1 rfl).1,
   ((processJob_outcomes envDisc [jobQueued] jobQueued jobFailedNC "x" (by decide)).1 rfl).2
     (by decide) rfl,
   (processJob_outcomes envOk [jobQueued] jobQueued jobSentAt7 "x" (by decide)).2.1 rfl rfl
     (by decide) rfl,
   ((processJob_outcomes envErr [jobQueued] jobQueued jobFailedBoom "Error: boom"
      (by decide)).2.2 rfl rfl).2 (by decide) rfl⟩

/-- C4 counterexample: in the `unnamed/part_001` implementation, a close
carrying the explicit-logout status code still schedules an automatic
reconnect (after 2000 ms) — the session re-enters initialization without
any explicit command, refuting the claim as stated over the whole
repository. -/
theorem part001_reconnects_on_logout :
    part001ReconnectDelayOnClose (some DisconnectReason.loggedOut) ≠ none := by
  decide

/-- C4 amended: in `wa_server.js`'s `startBaileys` handler a close
schedules no reconnect exactly when the status code is the explicit-logout
reason, and any other close schedules a 3000 ms reconnect (re-entering
initialization) with the connected flag dropped; `unnamed/part_004`
behaves the same with an immediate restart; the near-duplicate
implementations `unnamed/part_001` and `unnamed/part_000` instead
reconnect unconditionally on every close, including explicit logout. -/
theorem close_reconnect_policy (qrGen : String → Option (String × String))
    (user : Option String) (st : WaState) (sc : Option Nat) :
    ((waConnectionUpdate qrGen user st
        { connection := some .close, statusCode := sc, qr := none }).2 = none
      ↔ sc = some DisconnectReason.loggedOut)
    ∧ (sc ≠ some DisconnectReason.loggedOut →
        (waConnectionUpdate qrGen user st
          { connection := some .close, statusCode := sc, qr := none }).2 = some 3000)
    ∧ (waConnectionUpdate qrGen user st
        { connection := some .close, statusCode := sc, qr := none }).1.isConnected = false
    ∧ (part004ReconnectDelayOnClose sc = none ↔ sc = some DisconnectReason.loggedOut)
    ∧ part001ReconnectDelayOnClose sc = some 2000
    ∧ part000ReconnectDelayOnClose sc = some 0 := by
  refine ⟨?_, ?_, rfl, ?_, rfl, rfl⟩
  · show reconnectDelayOnClose sc = none ↔ sc = some DisconnectReason.loggedOut
    unfold reconnectDelayOnClose
    by_cases h : sc = some DisconnectReason.loggedOut
    · simp [h]
    · simp [h]
  · intro h
    show reconnectDelayOnClose sc = some 3000
    unfold reconnectDelayOnClose
    simp [h]
  · unfold part004ReconnectDelayOnClose
    by_cases h : sc = some DisconnectReason.loggedOut
    · simp [h]
    · simp [h]

/-- C4 amended witness: concrete closes — a transient status code (428)
schedules the 3000 ms reconnect while the explicit-logout code schedules
none, and part_001 reconnects even on logout. -/
theorem close_reconnect_policy_witness :
    (waConnectionUpdate (fun _ => none) none
        { isConnected := true, lastQR := none, lastQRpng := none, meJid := none }
        { connection := some .close, statusCode := some 428, qr := none }).2 = some 3000
    ∧ (waConnectionUpdate (fun _ => none) none
        { isConnected := true, lastQR := none, lastQRpng := none, meJid := none }
        { connection := some .close, statusCode := some DisconnectReason.loggedOut,
          qr := none }).2 = none
    ∧ part001ReconnectDelayOnClose (some DisconnectReason.loggedOut) = some 2000 :=
  ⟨(close_reconnect_policy (fun _ => none) none
      { isConnected := true, lastQR := none, lastQRpng := none, meJid := none }
      (some 428)).2.1 (by decide),
   (close_reconnect_policy (fun _ => none) none
      { isConnected := true, lastQR := none, lastQRpng := none, meJid := none }
      (some DisconnectReason.loggedOut)).1.mpr rfl,
   (close_reconnect_policy (fun _ => none) none
      { isConnected := true, lastQR := none, lastQRpng := none, meJid := none }
      (some DisconnectReason.loggedOut)).2.2.2.2.1⟩

/-- C5: a failed or absent credential restore is never fatal to session
initialization.  The retry loop returns `false` (treated as absent) both
on a 404 and on exhaustion of throwing attempts, and for every sequence
of fetch outcomes the initialization still installs the session in
`initializing` and a subsequent pairing event moves it to the QR-ready
state carrying the fresh pairing payload. -/
theorem restore_never_fatal (fetches : List FetchResult) (q : String) :
    (connectToWhatsApp fetches).2.status = .initializing
    ∧ (handleConnectionUpdate (connectToWhatsApp fetches).2 (qrUpdate q)).1.status = .qr_ready
    ∧ (handleConnectionUpdate (connectToWhatsApp fetches).2 (qrUpdate q)).1.qrCode = q
    ∧ (∀ (n : Nat) (m : String),
        restoreSessionFromDatabase (List.replicate n (.thrown m)) = false)
    ∧ (∀ rest : List FetchResult, restoreSessionFromDatabase (.notFound :: rest) = false) := by
  refine ⟨rfl, rfl, rfl, ?_, fun _ => rfl⟩
  intro n m
  induction n with
  | zero => rfl
  | succ k ih => simpa [List.replicate_succ, restoreSessionFromDatabase] using ih

/-- Falsy-field rejection of the submission endpoint. -/
lemma scheduleHandler_reject {pd : String → Option Int} {now : Int} {st : List Job}
    {nid : Nat} {req : ScheduleReq}
    (h : truthy req.dest = false ∨ truthy req.text = false ∨ truthy req.send_at = false) :
    scheduleHandler pd now st nid req =
      (st, .badRequest "Campos to, text, send_at são obrigatórios") := by
  rcases h with h | h | h <;> simp [scheduleHandler, h]

/-- A `Bool` not equal to `false` is `true`. -/
lemma bool_true_of_not_false {b : Bool} (h : ¬b = false) : b = true := by
  cases hb : b
  · exact absurd hb h
  · rfl

/-- Sample JS date parser: recognizes one ISO string. -/
def pdSample : String → Option Int :=
  fun s => if s = "2030-01-01T00:00:00Z" then some 100 else none

/-- JavaScript `<` with a possibly-NaN left operand: every comparison with
NaN is false (`none` models NaN). -/
def nanLt : Option Int → Int → Bool
  | none, _ => false
  | some a, b => a < b

/-- HTTP outcome of the in-memory `POST /schedule` of `unnamed/part_001`:
a 400 rejection or the ok answer accompanying a created timer. -/
inductive Part001ScheduleResult where
  | badRequest (msg : String)
  | accepted
deriving DecidableEq, Repr

/-- The in-memory `POST /schedule` handler of `unnamed/part_001` (lines
84-112): reject falsy `to`/`text`/`send_at` with `missing_fields`;
compute `delay = new Date(send_at).getTime() - Date.now()` (`none` models
the NaN of an unparsable date, with `parseDate`/`nowMs` as in
`scheduleHandler`); reject with `past_time` when `delay < 0` — NaN makes
that comparison false, so an unparsable `send_at` falls through —
otherwise create the timer and answer ok.  The second component records
whether a timer was created. -/
def part001ScheduleHandler (parseDate : String → Option Int) (nowMs : Int)
    (req : ScheduleReq) : Part001ScheduleResult × Bool :=
  if !(truthy req.dest) || !(truthy req.text) || !(truthy req.send_at) then
    (.badRequest "missing_fields", false)
  else
    let delay := (parseDate (req.send_at.getD "")).map (fun t => t - nowMs)
    if nanLt delay 0 then (.badRequest "past_time", false)
    else (.accepted, true)

/-- C6 counterexample: in the in-memory `/schedule` of `unnamed/part_001`
(one of the claim's cited sources) a request whose `send_at` does not
parse is accepted — the NaN delay fails the `delay < 0` check, so a timer
is created and ok is returned instead of a synchronous rejection — and a
request with a parseable past send time is rejected with `past_time`
instead of succeeding, refuting the claim as stated. -/
theorem part001_schedule_accepts_unparsable :
    part001ScheduleHandler pdSample 50
        { dest := some "11", text := some "hi", send_at := some "nonsense" }
      = (.accepted, true)
    ∧ part001ScheduleHandler pdSample 200
        { dest := some "11", text := some "hi",
          send_at := some "2030-01-01T00:00:00Z" }
      = (.badRequest "past_time", false) := by
  decide

/-- C6 (amended): the Postgres-backed submission endpoint of
`wa_server.js` rejects, leaving the table untouched, every request with a
missing/empty `to`, `text` or `send_at` and every request whose `send_at`
fails to parse to a real instant, and every request with truthy fields
and a parseable `send_at` inserts exactly one `queued` job and returns
its id; the in-memory `/schedule` of `unnamed/part_001` instead accepts
every request with truthy fields whose `send_at` does not parse (the NaN
delay fails the `delay < 0` check, so a timer is created and ok is
returned) and rejects a parseable past send time with `past_time`. -/
theorem scheduleHandler_validation (pd : String → Option Int) (now : Int)
    (st : List Job) (nid : Nat) (req : ScheduleReq) (nowMs : Int) :
    ((truthy req.dest = false ∨ truthy req.text = false ∨ truthy req.send_at = false) →
       (scheduleHandler pd now st nid req).1 = st
       ∧ (scheduleHandler pd now st nid req).2 =
           .badRequest "Campos to, text, send_at são obrigatórios")
    ∧ (∀ sa, req.send_at = some sa → pd sa = none →
        (scheduleHandler pd now st nid req).1 = st
        ∧ ∃ m, (scheduleHandler pd now st nid req).2 = .badRequest m)
    ∧ (∀ d t sa w, req.dest = some d → req.text = some t → req.send_at = some sa →
        truthy req.dest = true → truthy req.text = true → truthy req.send_at = true →
        pd sa = some w →
        (scheduleHandler pd now st nid req).1 =
          st ++ [{ id := nid, to_jid := (normalizeToJid d).getD "", message := t,
                   send_at := w, status := .queued, error := none,
                   created_at := now, sent_at := none }]
        ∧ (scheduleHandler pd now st nid req).2 = .created nid)
    ∧ (∀ sa, req.send_at = some sa →
        truthy req.dest = true → truthy req.text = true → truthy req.send_at = true →
        pd sa = none →
        part001ScheduleHandler pd nowMs req = (.accepted, true))
    ∧ (∀ sa t, req.send_at = some sa →
        truthy req.dest = true → truthy req.text = true → truthy req.send_at = true →
        pd sa = some t → t - nowMs < 0 →
        part001ScheduleHandler pd nowMs req = (.badRequest "past_time", false)) := by
  refine ⟨?_, ?_, ?_, ?_, ?_⟩
  · intro h
    rw [scheduleHandler_reject h]
    exact ⟨rfl, rfl⟩
  · intro sa hsa hpd
    by_cases h1 : truthy req.dest = false
    · rw [scheduleHandler_reject (Or.inl h1)]
      exact ⟨rfl, _, rfl⟩
    by_cases h2 : truthy req.text = false
    · rw [scheduleHandler_reject (Or.inr (Or.inl h2))]
      exact ⟨rfl, _, rfl⟩
    by_cases h3 : truthy req.send_at = false
    · rw [scheduleHandler_reject (Or.inr (Or.inr h3))]
      exact ⟨rfl, _, rfl⟩
    have h1t := bool_true_of_not_false h1
    have h2t := bool_true_of_not_false h2
    have h3t := bool_true_of_not_false h3
    rw [hsa] at h3t
    refine ⟨by simp [scheduleHandler, hsa, h1t, h2t, h3t, hpd],
      "send_at inválido (ISO esperado)",
      by simp [scheduleHandler, hsa, h1t, h2t, h3t, hpd]⟩
  · intro d t sa w hd ht hsa htd htt hts hw
    rw [hd] at htd
    rw [ht] at htt
    rw [hsa] at hts
    constructor
    · simp [scheduleHandler, hd, ht, hsa, htd, htt, hts, hw]
    · simp [scheduleHandler, hd, ht, hsa, htd, htt, hts, hw]
  · intro sa hsa h1t h2t h3t hpd
    rw [hsa] at h3t
    simp [part001ScheduleHandler, hsa, h1t, h2t, h3t, hpd, nanLt]
  · intro sa t hsa h1t h2t h3t hw hlt
    rw [hsa] at h3t
    simp [part001ScheduleHandler, hsa, h1t, h2t, h3t, hw, nanLt, hlt]

/-- C6 witness: a request without `to` is rejected with the table
untouched; an unparsable `send_at` is rejected by the Postgres-backed
handler with the table untouched; a valid request inserts one queued job
with the normalized recipient and returns id 1; the part_001 handler
accepts the unparsable `send_at` (timer created) and rejects the
parseable but past one with `past_time`. -/
theorem scheduleHandler_validation_witness :
    ((scheduleHandler pdSample 0 [] 1
        { dest := none, text := some "hi", send_at := some "2030-01-01T00:00:00Z" }).1 = []
      ∧ (scheduleHandler pdSample 0 [] 1
          { dest := none, text := some "hi", send_at := some "2030-01-01T00:00:00Z" }).2 =
          .badRequest "Campos to, text, send_at são obrigatórios")
    ∧ ((scheduleHandler pdSample 0 [] 1
          { dest := some "11", text := some "hi", send_at := some "nonsense" }).1 = []
       ∧ ∃ m, (scheduleHandler pdSample 0 [] 1
          { dest := some "11", text := some "hi", send_at := some "nonsense" }).2 =
          .badRequest m)
    ∧ ((scheduleHandler pdSample 0 [] 1
          { dest := some "(11) 98765-4321", text := some "hi",
            send_at := some "2030-01-01T00:00:00Z" }).1 =
        [{ id := 1, to_jid := "5511987654321@s.whatsapp.net", message := "hi",
           send_at := 100, status := .queued, error := none,
           created_at := 0, sent_at := none }]
       ∧ (scheduleHandler pdSample 0 [] 1
          { dest := some "(11) 98765-4321", text := some "hi",
            send_at := some "2030-01-01T00:00:00Z" }).2 = .created 1)
    ∧ part001ScheduleHandler pdSample 50
        { dest := some "11", text := some "hi", send_at := some "nonsense" }
        = (.accepted, true)
    ∧ part001ScheduleHandler pdSample 200
        { dest := some "11", text := some "hi",
          send_at := some "2030-01-01T00:00:00Z" }
        = (.badRequest "past_time", false) :=
  ⟨(scheduleHandler_validation pdSample 0 [] 1
      { dest := none, text := some "hi", send_at := some "2030-01-01T00:00:00Z" } 0).1
      (Or.inl rfl),
   (scheduleHandler_validation pdSample 0 [] 1
      { dest := some "11", text := some "hi", send_at := some "nonsense" } 0).2.1
      "nonsense" rfl (by decide),
   (scheduleHandler_validation pdSample 0 [] 1
      { dest := some "(11) 98765-4321", text := some "hi",
        send_at := some "2030-01-01T00:00:00Z" } 0).2.2.1
      "(11) 98765-4321" "hi" "2030-01-01T00:00:00Z" 100 rfl rfl rfl
      (by decide) (by decide) (by decide) (by decide),
   (scheduleHandler_validation pdSample 0 [] 1
      { dest := some "11", text := some "hi", send_at := some "nonsense" } 50).2.2.2.1
      "nonsense" rfl (by decide) (by decide) (by decide) (by decide),
   (scheduleHandler_validation pdSample 0 [] 1
      { dest := some "11", text := some "hi",
        send_at := some "2030-01-01T00:00:00Z" } 200).2.2.2.2
      "2030-01-01T00:00:00Z" 100 rfl (by decide) (by decide) (by decide)
      (by decide) (by decide)⟩

/-- C7: `sent` and `failed` are terminal.  With unique job ids, a row in a
terminal state survives a whole dispatcher tick unchanged, is never
selected by the due query of any later tick, and survives a submission
insert — no operation requeues or reclaims it. -/
theorem terminal_states_preserved (env : Env) (st : List Job) (j : Job)
    (pd : String → Option Int) (now2 : Int) (nid : Nat) (req : ScheduleReq) (lim : Nat)
    (hnodup : (st.map Job.id).Nodup) (hmem : j ∈ st)
    (hterm : j.status = .sent ∨ j.status = .failed) :
    j ∈ runSchedulerTick env st
    ∧ j ∉ claimDue st env.now lim
    ∧ j ∈ (scheduleHandler pd now2 st nid req).1 := by
  have hnq : j.status ≠ .queued := by
    rcases hterm with h | h <;> rw [h] <;> decide
  refine ⟨?_, ?_, ?_⟩
  · refine mem_foldl_processJob _ _ hmem ?_
    intro k hk heq
    obtain ⟨hkst, hkq, _⟩ := mem_claimDue hk
    have hkj : k = j := List.inj_on_of_nodup_map hnodup hkst hmem heq
    rw [hkj] at hkq
    exact hnq hkq
  · intro hin
    exact hnq (mem_claimDue hin).2.1
  · by_cases hc : (!(truthy req.dest) || !(truthy req.text) || !(truthy req.send_at)) = true
    · simpa only [scheduleHandler, if_pos hc] using hmem
    · have hc2 : (!(truthy req.dest) || !(truthy req.text) || !(truthy req.send_at)) = false :=
        Bool.eq_false_iff.mpr hc
      obtain ⟨hab, hcf⟩ := Bool.or_eq_false_iff.mp hc2
      obtain ⟨ha, hb⟩ := Bool.or_eq_false_iff.mp hab
      rw [Bool.not_eq_false'] at ha hb hcf
      cases hp : pd (req.send_at.getD "") with
      | none => simpa [scheduleHandler, ha, hb, hcf, hp] using hmem
      | some w =>
          simp [scheduleHandler, ha, hb, hcf, hp]
          exact Or.inl hmem

/-- C7 witness: on the sample store, the delivered job `jobSent` survives
a full tick, is excluded from the due query, and survives a submission. -/
theorem terminal_states_preserved_witness :
    jobSent ∈ runSchedulerTick sampleEnv sampleStore
    ∧ jobSent ∉ claimDue sampleStore sampleEnv.now 10
    ∧ jobSent ∈ (scheduleHandler pdSample 0 sampleStore 9
        { dest := none, text := none, send_at := none }).1 :=
  terminal_states_preserved sampleEnv sampleStore jobSent pdSample 0 9
    { dest := none, text := none, send_at := none } 10
    (by decide) (by decide) (Or.inl rfl)

/-- An ordinary transient close error (Boom status 428). -/
def transient428 : CloseErr := { statusCode := some 428, message := "Connection Closed" }

/-- A conflict-signal close error. -/
def conflictErr : CloseErr := { statusCode := none, message := "Stream Errored (conflict)" }

/-- A connected session whose periodic backup timer is armed. -/
def connectedArmed : Sess :=
  { qrCode := "", isConnected := true, status := .connected, backupArmed := true }

/-- A `connection.update` carrying only the open signal. -/
def openUpdate : ConnUpdate := { connection := some .opened, lastDisconnect := none, qr := none }

/-- C8 counterexample: a connected session with the periodic backup timer
armed receives an ordinary connection close.  The handler drops the
connected flag and marks the session disconnected, but does not cancel the
backup interval: the session is out of `connected` with the periodic
backup timer still armed, refuting the claim that the timer is canceled on
every transition out of the connected state. -/
theorem close_leaves_backup_armed :
    (handleConnectionUpdate connectedArmed (closeUpdate (some transient428))).1
      = { qrCode := "", isConnected := false, status := .disconnected,
          backupArmed := true } := by
  decide

/-- C8 amended: the periodic backup timer is armed when the session
reaches `connected` (re-arming over any previous interval) and the
one-shot forced backup is scheduled then; the timer is canceled by the
explicit reconnect/clear-session teardown; but a connection close leaves
the armed flag exactly as it was — leaving `connected` via a close does
not cancel the periodic backup timer. -/
theorem backup_interval_policy (s : Sess) (u : ConnUpdate) :
    (u.connection = some .opened →
       (handleConnectionUpdate s u).1.backupArmed = true
       ∧ (handleConnectionUpdate s u).1.status = .connected
       ∧ (handleConnectionUpdate s u).2.2 = true)
    ∧ (u.connection = some .close →
       (handleConnectionUpdate s u).1.backupArmed = s.backupArmed)
    ∧ (clearSessionTimers s).backupArmed = false := by
  obtain ⟨conn, ld, qr⟩ := u
  refine ⟨?_, ?_, rfl⟩
  · intro h
    simp only at h
    subst h
    cases qr <;> simp [handleConnectionUpdate]
  · intro h
    simp only at h
    subst h
    cases qr with
    | none =>
        simp only [handleConnectionUpdate]
        split
        · rfl
        · split <;> rfl
    | some q =>
        simp only [handleConnectionUpdate]
        split
        · rfl
        · split <;> rfl

/-- C8 witness: an open event on the initial session arms the backup
timer, reaches `connected` and schedules the forced backup; a close on a
connected armed session keeps the flag; teardown disarms it. -/
theorem backup_interval_policy_witness :
    ((handleConnectionUpdate initialSession openUpdate).1.backupArmed = true
      ∧ (handleConnectionUpdate initialSession openUpdate).1.status = .connected
      ∧ (handleConnectionUpdate initialSession openUpdate).2.2 = true)
    ∧ (handleConnectionUpdate connectedArmed (closeUpdate (some transient428))).1.backupArmed
        = connectedArmed.backupArmed
    ∧ (clearSessionTimers initialSession).backupArmed = false :=
  ⟨(backup_interval_policy initialSession openUpdate).1 rfl,
   (backup_interval_policy connectedArmed (closeUpdate (some transient428))).2.1 rfl,
   (backup_interval_policy initialSession openUpdate).2.2⟩

/-- C9: a close carrying a conflicting-session or device-removed signal
(the error message contains `'conflict'` or `'device_removed'`) schedules
its reconnect with a strictly longer delay (30000 ms) than an ordinary
transient closure (one that matches no conflict signal and is not an
explicit logout: 10000 ms). -/
theorem conflict_close_longer_delay (s1 s2 : Sess) (e1 e2 : CloseErr)
    (h1 : jsIncludes e1.message "conflict" = true
          ∨ jsIncludes e1.message "device_removed" = true)
    (h2 : isConflictClose (some e2) = false)
    (h3 : e2.statusCode ≠ some DisconnectReason.loggedOut) :
    ∃ d1 d2, (handleConnectionUpdate s1 (closeUpdate (some e1))).2.1 = some d1
      ∧ (handleConnectionUpdate s2 (closeUpdate (some e2))).2.1 = some d2
      ∧ d2 < d1 := by
  refine ⟨30000, 10000, ?_, ?_, by norm_num⟩
  · have hc : isConflictClose (some e1) = true := by
      simp only [isConflictClose]
      rcases h1 with h | h <;> simp [h]
    simp [handleConnectionUpdate, closeUpdate, hc]
  · have hs : shouldReconnect (some e2) = true := by
      simp only [shouldReconnect, Option.some_bind]
      exact bne_iff_ne.mpr h3
    simp [handleConnectionUpdate, closeUpdate, h2, hs]

/-- C9 witness: a conflict-message close against an ordinary transient
close (status 428) on the initial session. -/
theorem conflict_close_longer_delay_witness :
    ∃ d1 d2, (handleConnectionUpdate initialSession
        (closeUpdate (some conflictErr))).2.1 = some d1
      ∧ (handleConnectionUpdate initialSession
          (closeUpdate (some transient428))).2.1 = some d2
      ∧ d2 < d1 :=
  conflict_close_longer_delay initialSession initialSession conflictErr transient428
    (Or.inl (by decide)) (by decide) (by decide)

/-- A string not starting with `'0'` is unchanged by leading-zero
removal. -/
lemma dropLeadingZeros_eq_self {p : String} (h : strStartsWith p "0" = false) :
    dropLeadingZeros p = p := by
  obtain ⟨data⟩ := p
  have h0 : "0".data = ['0'] := rfl
  simp only [strStartsWith, h0] at h
  cases data with
  | nil => rfl
  | cons c cs =>
      simp only [listStartsWith, Bool.and_eq_false_iff] at h
      rcases h with h | h
      · simp [dropLeadingZeros, List.dropWhile_cons, h]
      · exact absurd h (by simp [listStartsWith])

/-- C10: the recipient identifier produced by `normalizeToJid` coincides,
on every input, with the pipeline the specification describes (strip every
non-digit, remove leading zeros, prepend `"55"` when the digits do not
already start with it, append `"@s.whatsapp.net"`); consequently two
accepted inputs whose digit content agrees — in particular inputs
differing only in punctuation — map to the same recipient. -/
theorem normalizeToJid_refines_spec (s1 s2 : String) :
    normalizeToJid s1 = normalizeToJidSpec s1
    ∧ (s1 ≠ "" → s2 ≠ "" → digitsOnly s1 = digitsOnly s2 →
        normalizeToJid s1 = normalizeToJid s2) := by
  constructor
  · by_cases h : s1 = ""
    · simp [normalizeToJid, normalizeToJidSpec, h]
    · simp only [normalizeToJid, normalizeToJidSpec, if_neg h]
      by_cases h0 : strStartsWith (digitsOnly s1) "0" = true
      · rw [if_pos h0]
      · rw [if_neg h0, dropLeadingZeros_eq_self (Bool.eq_false_iff.mpr h0)]
  · intro h1 h2 hd
    simp only [normalizeToJid, if_neg h1, if_neg h2, hd]

/-- C10 witness: `"(11) 98765-4321"` and `"11987654321"` differ only in
punctuation and normalize to the same JID. -/
theorem normalizeToJid_refines_spec_witness :
    normalizeToJid "(11) 98765-4321" = normalizeToJidSpec "(11) 98765-4321"
    ∧ normalizeToJid "(11) 98765-4321" = normalizeToJid "11987654321" :=
  ⟨(normalizeToJid_refines_spec "(11) 98765-4321" "11987654321").1,
   (normalizeToJid_refines_spec "(11) 98765-4321" "11987654321").2
     (by decide) (by decide) (by decide)⟩
